import Mathlib

/-!
Shallow embedding of the AccessiBridge Flask application (`app.py`) and
verification of its specification claims.

The application is a set of HTTP request handlers over a SQLite store and an
external generative-AI gateway.  Each handler is embedded as a pure Lean
function from its request inputs and the database state to a response, an
updated database state, and a list of side effects (file reads, AI calls,
database connection opens, database reads/writes).  External collaborators are
parameters: the AI gateway is a function from the prompt to `Except`
(failure raises, success returns the generated text), and werkzeug's
`secure_filename` is an opaque `sanitize : String → String` parameter.
-/

namespace AccessiBridge

/-- Side effects a handler can perform, in the order they occur. -/
inductive Effect where
  | readFile : Effect
  | aiCall : Effect
  | dbOpen : Effect
  | dbRead : Effect
  | dbWrite : Effect
deriving DecidableEq, Repr

/-- A multipart file upload: `file.filename` and the bytes `file.read()` returns. -/
structure UploadedFile where
  filename : String
  content : List Nat
deriving DecidableEq, Repr

/-- A JSON object body with string values, as `request.get_json()` returns it
(insertion-ordered, unique keys). -/
abbrev JsonObj := List (String × String)

/-- `data[k]` / `k in data` combined: the value of key `k` if present. -/
def getKey (data : JsonObj) (k : String) : Option String :=
  (data.find? (fun kv => kv.1 = k)).map (fun kv => kv.2)

/-- `data.get(k, d)`. -/
def getKeyD (data : JsonObj) (k d : String) : String :=
  (getKey data k).getD d

/-- Row of the `image_descriptions` table. -/
structure ImageDescriptionRow where
  id : Nat
  filename : String
  description : String
  created_at : Nat
deriving DecidableEq, Repr

/-- Row of the `transcriptions` table. -/
structure TranscriptionRow where
  id : Nat
  text : String
  source : String
  created_at : Nat
deriving DecidableEq, Repr

/-- Row of the `user_preferences` table. -/
structure UserPreferenceRow where
  id : Nat
  preference_key : String
  preference_value : String
  updated_at : Nat
deriving DecidableEq, Repr

/-- Row of the `saved_texts` table. -/
structure SavedTextRow where
  id : Nat
  title : String
  content : String
  category : String
  created_at : Nat
deriving DecidableEq, Repr

/-- Row of the `conversation_history` table. -/
structure ConversationRow where
  id : Nat
  session_id : String
  speaker : String
  message : String
  message_type : String
  created_at : Nat
deriving DecidableEq, Repr

/-- The SQLite database state: the five tables created by `init_db`, plus the
AUTOINCREMENT counter of each table. -/
structure DB where
  image_descriptions : List ImageDescriptionRow := []
  transcriptions : List TranscriptionRow := []
  user_preferences : List UserPreferenceRow := []
  saved_texts : List SavedTextRow := []
  conversation_history : List ConversationRow := []
  next_image_id : Nat := 1
  next_transcription_id : Nat := 1
  next_preference_id : Nat := 1
  next_saved_text_id : Nat := 1
  next_conversation_id : Nat := 1
deriving DecidableEq, Repr

/-- The empty database, as `init_db` first creates it. -/
def emptyDB : DB := {}

/-- A JSON response from a handler together with its HTTP status code.
Optional fields mirror the keys the handlers put into `jsonify(...)`. -/
structure ApiResp where
  status : Nat
  success : Bool
  error : Option String := none
  description : Option String := none
  mode : Option String := none
  text : Option String := none
  method : Option String := none
  simplified : Option String := none
deriving DecidableEq, Repr

/-- `jsonify({'error': msg}), status`. -/
def errResp (status : Nat) (msg : String) : ApiResp :=
  { status := status, success := false, error := some msg }

/-- `jsonify({'success': True, ...})` (status 200). -/
def okResp : ApiResp :=
  { status := 200, success := true }

/-- `ALLOWED_EXTENSIONS = {'png', 'jpg', 'jpeg', 'gif', 'webp', 'pdf', 'txt', 'doc', 'docx'}` -/
def ALLOWED_EXTENSIONS : List String :=
  ["png", "jpg", "jpeg", "gif", "webp", "pdf", "txt", "doc", "docx"]

/-- The characters after the last dot of the string, if it has a dot:
`filename.rsplit('.', 1)[1]` guarded by `'.' in filename`. -/
def lastDotSuffix : List Char → Option (List Char)
  | [] => none
  | c :: rest =>
    match lastDotSuffix rest with
    | some t => some t
    | none => if c = '.' then some rest else none

/-- `str.lower()` on one character (ASCII range, which covers the extension
allow-list comparisons). -/
def lowerChar (c : Char) : Char :=
  if 65 ≤ c.toNat ∧ c.toNat ≤ 90 then Char.ofNat (c.toNat + 32) else c

/-- `s.lower()`. -/
def lowerStr (s : String) : String :=
  String.mk (s.data.map lowerChar)

/-- `allowed_file(filename)`:
`'.' in filename and filename.rsplit('.', 1)[1].lower() in ALLOWED_EXTENSIONS`. -/
def allowed_file (filename : String) : Bool :=
  match lastDotSuffix filename.data with
  | some ext => ALLOWED_EXTENSIONS.contains (lowerStr (String.mk ext))
  | none => false

/-- `filename.rsplit('.', 1)[1].lower() if '.' in filename else ''`
(used by `api_extract_document`). -/
def extOf (filename : String) : String :=
  match lastDotSuffix filename.data with
  | some ext => lowerStr (String.mk ext)
  | none => ""

/-- An ASCII apostrophe, as it appears inside two of the prompt strings. -/
def apos : String := String.singleton (Char.ofNat 39)

/-- Prompt template for mode `'quick'` (app.py line 164). -/
def PROMPT_QUICK : String :=
  "Describe this image in one clear, concise sentence. Focus on the main subject."

/-- Prompt template for mode `'detailed'` (app.py lines 166-172). -/
def PROMPT_DETAILED : String :=
  "Provide a detailed, accessible description of this image for someone who cannot see it. Include:\n            1. Main subject and what" ++ apos ++ "s happening\n            2. Colors, shapes, and visual elements\n            3. Text visible in the image (if any)\n            4. Spatial relationships (left, right, foreground, background)\n            5. Emotional tone or mood\n            Be thorough but organized. Use clear, descriptive language."

/-- Prompt template for mode `'navigation'` (app.py lines 174-179). -/
def PROMPT_NAVIGATION : String :=
  "Describe this image as if helping a blind person navigate or understand a physical space or document. Include:\n            1. Layout and structure\n            2. Any text, signs, or labels\n            3. Important objects and their positions\n            4. Potential hazards or obstacles (if applicable)\n            5. Key information for practical use"

/-- Prompt template for the `else` branch (deafblind mode, app.py lines 181-185). -/
def PROMPT_DEAFBLIND : String :=
  "Describe this image in a simple, structured format for someone who is deafblind:\n            SUBJECT: [main subject in 5 words or less]\n            DESCRIPTION: [clear, simple description in 2-3 sentences]\n            TEXT: [any text visible, or \"none\"]\n            KEY DETAILS: [bullet points of important elements]"

/-- The `if mode == 'quick' ... elif ... else` chain of `api_describe_image`
(app.py lines 163-185). -/
def describePrompt (mode : String) : String :=
  if mode = "quick" then PROMPT_QUICK
  else if mode = "detailed" then PROMPT_DETAILED
  else if mode = "navigation" then PROMPT_NAVIGATION
  else PROMPT_DEAFBLIND

/-- The fixed prefix of the simplification prompt of `api_simplify_text`
(app.py lines 318-325); the request text is appended to it. -/
def SIMPLIFY_PREFIX : String :=
  "Simplify the following text for someone who is deafblind. Use:\n        - Short, clear sentences\n        - Simple vocabulary\n        - Structured format with clear sections\n        - No idioms or complex metaphors\n\n        Text to simplify:\n        "

/-- The fixed extraction prompt of `api_extract_document` (app.py line 276). -/
def EXTRACT_PROMPT : String :=
  "Extract all text from this document. Preserve the structure and formatting as much as possible. If it" ++ apos ++ "s an image, describe any visual elements along with the text."

/-- `0x80 <= b < 0xC0`: a UTF-8 continuation byte. -/
def isContByte (b : Nat) : Bool := 0x80 ≤ b && b < 0xC0

/-- Strict UTF-8 decoding of a byte sequence into characters, as
`bytes.decode('utf-8')`: rejects stray continuation bytes, overlong forms,
surrogates, code points above 0x10FFFF, and truncated sequences.
`none` models the `UnicodeDecodeError` the `except:` branch catches. -/
def utf8Chars? : List Nat → Option (List Char)
  | [] => some []
  | b :: rest =>
    if b < 0x80 then (utf8Chars? rest).map (fun cs => Char.ofNat b :: cs)
    else if b < 0xC2 then none
    else if b < 0xE0 then
      match rest with
      | b1 :: rest1 =>
        if isContByte b1 then
          (utf8Chars? rest1).map
            (fun cs => Char.ofNat ((b - 0xC0) * 64 + (b1 - 0x80)) :: cs)
        else none
      | [] => none
    else if b < 0xF0 then
      match rest with
      | b1 :: b2 :: rest2 =>
        if (if b = 0xE0 then decide (0xA0 ≤ b1) && decide (b1 < 0xC0)
            else if b = 0xED then decide (0x80 ≤ b1) && decide (b1 < 0xA0)
            else isContByte b1) && isContByte b2 then
          (utf8Chars? rest2).map
            (fun cs =>
              Char.ofNat ((b - 0xE0) * 4096 + (b1 - 0x80) * 64 + (b2 - 0x80)) :: cs)
        else none
      | _ => none
    else if b < 0xF5 then
      match rest with
      | b1 :: b2 :: b3 :: rest3 =>
        if (if b = 0xF0 then decide (0x90 ≤ b1) && decide (b1 < 0xC0)
            else if b = 0xF4 then decide (0x80 ≤ b1) && decide (b1 < 0x90)
            else isContByte b1) && isContByte b2 && isContByte b3 then
          (utf8Chars? rest3).map
            (fun cs =>
              Char.ofNat ((b - 0xF0) * 262144 + (b1 - 0x80) * 4096
                + (b2 - 0x80) * 64 + (b3 - 0x80)) :: cs)
        else none
      | _ => none
    else none

/-- `content.decode('utf-8')`, `none` on `UnicodeDecodeError`. -/
def utf8Decode? (bs : List Nat) : Option String :=
  (utf8Chars? bs).map (fun cs => String.mk cs)

/-- `content.decode('latin-1')`: total — every byte maps to the code point of
the same value. -/
def latin1Decode (bs : List Nat) : String :=
  String.mk (bs.map Char.ofNat)

/-- The `try: content.decode('utf-8') except: content.decode('latin-1')`
step of `api_extract_document` (app.py lines 265-268). -/
def decodeTextContent (bs : List Nat) : String :=
  match utf8Decode? bs with
  | some t => t
  | none => latin1Decode bs

/-- `POST /api/describe-image` (app.py lines 139-212).
`geminiConfigured` is whether `gemini_model` is set; `imageFile` is
`request.files.get('image')`; `modeParam` is `request.form.get('mode')`;
`ai` is the external gateway (`generate_content`) as a function from the
prompt to its outcome; `sanitize` is werkzeug's `secure_filename`;
`now` is the server-assigned `CURRENT_TIMESTAMP`. -/
def api_describe_image (geminiConfigured : Bool) (imageFile : Option UploadedFile)
    (modeParam : Option String) (ai : String → Except String String)
    (sanitize : String → String) (now : Nat) (db : DB) :
    ApiResp × DB × List Effect :=
  if !geminiConfigured then
    (errResp 400 "Gemini API not configured. Please set GEMINI_API_KEY environment variable.",
      db, [])
  else
    match imageFile with
    | none => (errResp 400 "No image provided", db, [])
    | some file =>
      if file.filename = "" then (errResp 400 "No image selected", db, [])
      else if !allowed_file file.filename then (errResp 400 "Invalid file type", db, [])
      else
        let mode := modeParam.getD "detailed"
        let prompt := describePrompt mode
        match ai prompt with
        | Except.error e => (errResp 500 e, db, [Effect.readFile, Effect.aiCall])
        | Except.ok description =>
          let row : ImageDescriptionRow :=
            { id := db.next_image_id
              filename := sanitize file.filename
              description := description
              created_at := now }
          ({ okResp with description := some description, mode := some mode },
            { db with
                image_descriptions := db.image_descriptions ++ [row]
                next_image_id := db.next_image_id + 1 },
            [Effect.readFile, Effect.aiCall, Effect.dbOpen, Effect.dbWrite])

/-- `POST /api/save-transcription` (app.py lines 214-229).
`body` is `request.get_json()` (`none` for a missing/null body; the empty
object is falsy, like `None`, under `if not data`). -/
def api_save_transcription (body : Option JsonObj) (now : Nat) (db : DB) :
    ApiResp × DB × List Effect :=
  match body with
  | none => (errResp 400 "No text provided", db, [])
  | some data =>
    if data = [] then (errResp 400 "No text provided", db, [])
    else
      match getKey data "text" with
      | none => (errResp 400 "No text provided", db, [])
      | some text =>
        let row : TranscriptionRow :=
          { id := db.next_transcription_id
            text := text
            source := getKeyD data "source" "speech"
            created_at := now }
        (okResp,
          { db with
              transcriptions := db.transcriptions ++ [row]
              next_transcription_id := db.next_transcription_id + 1 },
          [Effect.dbOpen, Effect.dbWrite])

/-- `POST /api/save-text` (app.py lines 231-246). -/
def api_save_text (body : Option JsonObj) (now : Nat) (db : DB) :
    ApiResp × DB × List Effect :=
  match body with
  | none => (errResp 400 "No content provided", db, [])
  | some data =>
    if data = [] then (errResp 400 "No content provided", db, [])
    else
      match getKey data "content" with
      | none => (errResp 400 "No content provided", db, [])
      | some content =>
        let row : SavedTextRow :=
          { id := db.next_saved_text_id
            title := getKeyD data "title" "Untitled"
            content := content
            category := getKeyD data "category" "general"
            created_at := now }
        (okResp,
          { db with
              saved_texts := db.saved_texts ++ [row]
              next_saved_text_id := db.next_saved_text_id + 1 },
          [Effect.dbOpen, Effect.dbWrite])

/-- `POST /api/extract-document` (app.py lines 248-284).  Touches no database;
returns the response and the effect list.  The file content is read
(`file.read()`, an `Effect.readFile`) before the extension is examined. -/
def api_extract_document (geminiConfigured : Bool) (docFile : Option UploadedFile)
    (ai : String → Except String String) (sanitize : String → String) :
    ApiResp × List Effect :=
  match docFile with
  | none => (errResp 400 "No document provided", [])
  | some file =>
    if file.filename = "" then (errResp 400 "No document selected", [])
    else
      let content := file.content
      let filename := sanitize file.filename
      let ext := extOf filename
      if ext = "txt" then
        ({ okResp with text := some (decodeTextContent content), method := some "direct" },
          [Effect.readFile])
      else if geminiConfigured && ["pdf", "png", "jpg", "jpeg"].contains ext then
        match ai EXTRACT_PROMPT with
        | Except.ok t =>
          ({ okResp with text := some t, method := some "gemini" },
            [Effect.readFile, Effect.aiCall])
        | Except.error e => (errResp 500 e, [Effect.readFile, Effect.aiCall])
      else
        (errResp 400 "Unsupported file type or Gemini not available", [Effect.readFile])

/-- `POST /api/conversation` (app.py lines 286-305). -/
def api_conversation (body : Option JsonObj) (now : Nat) (db : DB) :
    ApiResp × DB × List Effect :=
  match body with
  | none => (errResp 400 "No data provided", db, [])
  | some data =>
    if data = [] then (errResp 400 "No data provided", db, [])
    else
      let row : ConversationRow :=
        { id := db.next_conversation_id
          session_id := getKeyD data "session_id" "default"
          speaker := getKeyD data "speaker" "unknown"
          message := getKeyD data "message" ""
          message_type := getKeyD data "message_type" "text"
          created_at := now }
      (okResp,
        { db with
            conversation_history := db.conversation_history ++ [row]
            next_conversation_id := db.next_conversation_id + 1 },
        [Effect.dbOpen, Effect.dbWrite])

/-- `POST /api/simplify-text` (app.py lines 307-330).  Touches no database. -/
def api_simplify_text (geminiConfigured : Bool) (body : Option JsonObj)
    (ai : String → Except String String) : ApiResp × List Effect :=
  if !geminiConfigured then (errResp 400 "Gemini API not available", [])
  else
    match body with
    | none => (errResp 400 "No text provided", [])
    | some data =>
      if data = [] then (errResp 400 "No text provided", [])
      else
        match getKey data "text" with
        | none => (errResp 400 "No text provided", [])
        | some text =>
          match ai (SIMPLIFY_PREFIX ++ text) with
          | Except.ok t =>
            ({ okResp with simplified := some t }, [Effect.aiCall])
          | Except.error e => (errResp 500 e, [Effect.aiCall])

/-- One iteration of the preferences loop:
`INSERT OR REPLACE INTO user_preferences (preference_key, preference_value,
updated_at) VALUES (?, ?, CURRENT_TIMESTAMP)` (app.py lines 348-351).
SQLite deletes any row that conflicts on the UNIQUE `preference_key` and
inserts a fresh row with a new rowid. -/
def upsertPreference (key value : String) (now : Nat) (db : DB) : DB :=
  { db with
      user_preferences :=
        db.user_preferences.filter (fun r => r.preference_key ≠ key)
          ++ [{ id := db.next_preference_id
                preference_key := key
                preference_value := value
                updated_at := now }]
      next_preference_id := db.next_preference_id + 1 }

/-- `GET /api/preferences` (app.py lines 332-340): the stored key/value map.
`db = get_db()` runs before the method check, so the connection is opened. -/
def api_preferences_get (db : DB) : List (String × String) × List Effect :=
  (db.user_preferences.map (fun r => (r.preference_key, r.preference_value)),
    [Effect.dbOpen, Effect.dbRead])

/-- `POST /api/preferences` (app.py lines 332-354): one upsert per key of the
body (`for key, value in data.items(): db.execute('INSERT OR REPLACE ...')`).
`db = get_db()` runs before the body check. -/
def api_preferences_post (body : Option JsonObj) (now : Nat) (db : DB) :
    ApiResp × DB × List Effect :=
  match body with
  | none => (errResp 400 "No data provided", db, [Effect.dbOpen])
  | some data =>
    if data = [] then (errResp 400 "No data provided", db, [Effect.dbOpen])
    else
      (okResp,
        data.foldl (fun d kv => upsertPreference kv.1 kv.2 now d) db,
        Effect.dbOpen :: data.map (fun _ => Effect.dbWrite))

/-- The table allow-list of `api_delete_item` (app.py line 359). -/
def allowed_tables : List String := ["image_descriptions", "transcriptions", "saved_texts"]

/-- `DELETE /api/delete/<table>/<int:id>` (app.py lines 356-370).
The allow-list check precedes `get_db()`; the DELETE statement succeeds
whether or not any row matches. -/
def api_delete_item (table : String) (id : Nat) (db : DB) :
    ApiResp × DB × List Effect :=
  if !allowed_tables.contains table then (errResp 400 "Invalid table", db, [])
  else
    let db' :=
      if table = "image_descriptions" then
        { db with image_descriptions := db.image_descriptions.filter (fun r => r.id ≠ id) }
      else if table = "transcriptions" then
        { db with transcriptions := db.transcriptions.filter (fun r => r.id ≠ id) }
      else
        { db with saved_texts := db.saved_texts.filter (fun r => r.id ≠ id) }
    (okResp, db', [Effect.dbOpen, Effect.dbWrite])

/-- Insert a row into a list sorted by `created_at` descending, keeping
earlier rows first among equal timestamps. -/
def insertByCreatedDesc (r : TranscriptionRow) : List TranscriptionRow → List TranscriptionRow
  | [] => [r]
  | x :: xs =>
    if r.created_at > x.created_at then r :: x :: xs
    else x :: insertByCreatedDesc r xs

/-- Sort rows by `created_at` descending (insertion sort, stable). -/
def sortByCreatedDesc : List TranscriptionRow → List TranscriptionRow
  | [] => []
  | x :: xs => insertByCreatedDesc x (sortByCreatedDesc xs)

/-- `SELECT * FROM transcriptions ORDER BY created_at DESC LIMIT 50`
(app.py line 130). -/
def selectRecentTranscriptions (db : DB) : List TranscriptionRow :=
  (sortByCreatedDesc db.transcriptions).take 50

/-- Number of AI-gateway calls in an effect list. -/
def aiCalls (effs : List Effect) : Nat := effs.count Effect.aiCall

/-- Number of database write statements (insert, delete, or upsert) in an
effect list. -/
def dbWrites (effs : List Effect) : Nat := effs.count Effect.dbWrite

end AccessiBridge

namespace AccessiBridge

set_option maxRecDepth 8192

/-- C1: In the describe-image operation, each of the four recognized mode
values {quick, detailed, navigation, deafblind} selects a distinct, non-empty
prompt template, and for every mode string not in that set the handler uses
the deafblind template (not the detailed one). -/
theorem C1_mode_selects_distinct_prompts_deafblind_fallback :
    (describePrompt "quick" ≠ describePrompt "detailed" ∧
     describePrompt "quick" ≠ describePrompt "navigation" ∧
     describePrompt "quick" ≠ describePrompt "deafblind" ∧
     describePrompt "detailed" ≠ describePrompt "navigation" ∧
     describePrompt "detailed" ≠ describePrompt "deafblind" ∧
     describePrompt "navigation" ≠ describePrompt "deafblind" ∧
     describePrompt "quick" ≠ "" ∧
     describePrompt "detailed" ≠ "" ∧
     describePrompt "navigation" ≠ "" ∧
     describePrompt "deafblind" ≠ "") ∧
    ∀ mode : String, mode ∉ ["quick", "detailed", "navigation", "deafblind"] →
      describePrompt mode = describePrompt "deafblind" := by
  constructor
  · decide
  · intro mode h
    simp only [List.mem_cons, List.not_mem_nil, or_false, not_or] at h
    obtain ⟨h1, h2, h3, h4⟩ := h
    simp [describePrompt, h1, h2, h3]

/-- Instance of C1 at the unrecognized mode string `"speedy"`. -/
theorem C1_mode_fallback_witness :
    describePrompt "speedy" = describePrompt "deafblind" :=
  C1_mode_selects_distinct_prompts_deafblind_fallback.2 "speedy" (by decide)

/-- C3: For every uploaded file whose extension is "txt", the
extract-document operation decodes the bytes directly and returns method
"direct" without ever invoking the AI gateway, regardless of whether the
gateway is configured. -/
theorem C3_txt_never_invokes_gateway (gem : Bool) (f : UploadedFile)
    (ai : String → Except String String) (sanitize : String → String)
    (hname : f.filename ≠ "") (hext : extOf (sanitize f.filename) = "txt") :
    (api_extract_document gem (some f) ai sanitize).1.success = true ∧
    (api_extract_document gem (some f) ai sanitize).1.method = some "direct" ∧
    Effect.aiCall ∉ (api_extract_document gem (some f) ai sanitize).2 := by
  simp [api_extract_document, hname, hext, okResp]

/-- Instance of C3: a txt upload with the gateway configured. -/
theorem C3_txt_never_invokes_gateway_witness :
    (api_extract_document true (some ⟨"notes.txt", [104, 105]⟩)
        (fun _ => Except.ok "ai") id).1.success = true ∧
    (api_extract_document true (some ⟨"notes.txt", [104, 105]⟩)
        (fun _ => Except.ok "ai") id).1.method = some "direct" ∧
    Effect.aiCall ∉ (api_extract_document true (some ⟨"notes.txt", [104, 105]⟩)
        (fun _ => Except.ok "ai") id).2 :=
  C3_txt_never_invokes_gateway true ⟨"notes.txt", [104, 105]⟩
    (fun _ => Except.ok "ai") id (by decide) (by decide)

/-- C10: For every byte sequence uploaded as a .txt document, the decoding
step of extract-document is total: when UTF-8 decoding fails the handler
falls back to Latin-1, which succeeds on any byte sequence, so the
direct-extraction branch never raises a decode error and always returns
success with method "direct". -/
theorem C10_txt_decoding_total (gem : Bool) (f : UploadedFile)
    (ai : String → Except String String) (sanitize : String → String)
    (hname : f.filename ≠ "") (hext : extOf (sanitize f.filename) = "txt") :
    (api_extract_document gem (some f) ai sanitize).1.status = 200 ∧
    (api_extract_document gem (some f) ai sanitize).1.success = true ∧
    (api_extract_document gem (some f) ai sanitize).1.text =
      some (decodeTextContent f.content) ∧
    (utf8Decode? f.content = none →
      (api_extract_document gem (some f) ai sanitize).1.text =
        some (latin1Decode f.content)) := by
  refine ⟨?_, ?_, ?_, ?_⟩ <;>
    simp [api_extract_document, hname, hext, okResp, decodeTextContent]
  intro hfail
  simp [hfail]

/-- Instance of C10 at a byte sequence that is not valid UTF-8. -/
theorem C10_txt_decoding_total_witness :
    (api_extract_document false (some ⟨"b.txt", [255, 65]⟩)
        (fun _ => Except.error "down") id).1.status = 200 ∧
    (api_extract_document false (some ⟨"b.txt", [255, 65]⟩)
        (fun _ => Except.error "down") id).1.text =
      some (latin1Decode [255, 65]) :=
  ⟨(C10_txt_decoding_total false ⟨"b.txt", [255, 65]⟩
      (fun _ => Except.error "down") id (by decide) (by decide)).1,
   (C10_txt_decoding_total false ⟨"b.txt", [255, 65]⟩
      (fun _ => Except.error "down") id (by decide) (by decide)).2.2.2 (by decide)⟩

/-- Rows surviving the upsert's replace step never carry the upserted key. -/
lemma filter_ne_then_eq_nil (l : List UserPreferenceRow) (k : String) :
    (l.filter (fun r => r.preference_key ≠ k)).filter
      (fun r => r.preference_key = k) = [] := by
  induction l with
  | nil => rfl
  | cons x xs ih =>
    by_cases h : x.preference_key = k <;>
      simp [List.filter_cons, h, ih]

/-- After an upsert, the rows holding the upserted key are exactly the one
fresh row. -/
lemma upsertPreference_rows_for_key (db : DB) (k v : String) (n : Nat) :
    (upsertPreference k v n db).user_preferences.filter
        (fun r => r.preference_key = k) =
      [{ id := db.next_preference_id, preference_key := k,
         preference_value := v, updated_at := n }] := by
  simp [upsertPreference, List.filter_append, filter_ne_then_eq_nil]

/-- C4: For every preference key, performing an upsert of that key with one
value and then an upsert of the same key with a second value leaves exactly
one stored row for that key, holding the second value (insert-or-replace,
last write wins). -/
theorem C4_upsert_last_write_wins (db : DB) (k v1 v2 : String) (n1 n2 : Nat) :
    ((upsertPreference k v2 n2 (upsertPreference k v1 n1 db)).user_preferences.filter
        (fun r => r.preference_key = k)).map (fun r => r.preference_value) = [v2] := by
  rw [upsertPreference_rows_for_key]
  rfl

/-- C5: For every allowed table and every id, the delete-by-id operation on an
id that is not present in the table returns success with no row affected
(deletion is idempotent); it never returns an error or a not-found result for
a missing id.  Stated per allowed table, conditioning only on the absence of
the id from the targeted table. -/
theorem C5_delete_missing_id_is_success_noop :
    (∀ (id : Nat) (db : DB), (∀ r ∈ db.image_descriptions, r.id ≠ id) →
        api_delete_item "image_descriptions" id db =
          (okResp, db, [Effect.dbOpen, Effect.dbWrite])) ∧
    (∀ (id : Nat) (db : DB), (∀ r ∈ db.transcriptions, r.id ≠ id) →
        api_delete_item "transcriptions" id db =
          (okResp, db, [Effect.dbOpen, Effect.dbWrite])) ∧
    (∀ (id : Nat) (db : DB), (∀ r ∈ db.saved_texts, r.id ≠ id) →
        api_delete_item "saved_texts" id db =
          (okResp, db, [Effect.dbOpen, Effect.dbWrite])) := by
  refine ⟨?_, ?_, ?_⟩ <;> intro id db h
  · have hfil : List.filter (fun r => !decide (r.id = id)) db.image_descriptions =
        db.image_descriptions :=
      List.filter_eq_self.mpr (fun x hx => by simp [h x hx])
    simp [api_delete_item, allowed_tables, hfil]
  · have hfil : List.filter (fun r => !decide (r.id = id)) db.transcriptions =
        db.transcriptions :=
      List.filter_eq_self.mpr (fun x hx => by simp [h x hx])
    simp [api_delete_item, allowed_tables, hfil]
  · have hfil : List.filter (fun r => !decide (r.id = id)) db.saved_texts =
        db.saved_texts :=
      List.filter_eq_self.mpr (fun x hx => by simp [h x hx])
    simp [api_delete_item, allowed_tables, hfil]

/-- Instance of C5: deleting id 7 from `saved_texts` succeeds and changes
nothing, in a database where no saved text has id 7 even though a
transcription with id 7 exists. -/
theorem C5_delete_missing_id_witness :
    api_delete_item "saved_texts" 7
        { emptyDB with transcriptions := [⟨7, "x", "speech", 0⟩] } =
      (okResp, { emptyDB with transcriptions := [⟨7, "x", "speech", 0⟩] },
        [Effect.dbOpen, Effect.dbWrite]) :=
  C5_delete_missing_id_is_success_noop.2.2 7
    { emptyDB with transcriptions := [⟨7, "x", "speech", 0⟩] } (by decide)

/-- C6: For every table name not in the allow-list {image_descriptions,
transcriptions, saved_texts} and every id, the DELETE /api/delete/<table>/<id>
endpoint returns a client error (400) and performs no database operation at
all: the stored state is unchanged and no connection is even opened. -/
theorem C6_delete_disallowed_table_no_db_operation (table : String) (id : Nat)
    (db : DB) (h : table ∉ allowed_tables) :
    api_delete_item table id db = (errResp 400 "Invalid table", db, []) := by
  have hc : allowed_tables.contains table = false := by
    cases hq : allowed_tables.contains table
    · rfl
    · exact absurd (List.mem_of_elem_eq_true hq) h
  simp [api_delete_item, hc, h]

/-- Instance of C6 at the disallowed table `users`. -/
theorem C6_delete_disallowed_table_witness :
    api_delete_item "users" 1 emptyDB = (errResp 400 "Invalid table", emptyDB, []) :=
  C6_delete_disallowed_table_no_db_operation "users" 1 emptyDB (by decide)

/-- Appending a row strictly newer than every existing row and sorting by
`created_at` descending puts that row first. -/
lemma sortByCreatedDesc_append_newest (l : List TranscriptionRow)
    (r : TranscriptionRow) (h : ∀ x ∈ l, x.created_at < r.created_at) :
    sortByCreatedDesc (l ++ [r]) = r :: sortByCreatedDesc l := by
  induction l with
  | nil => rfl
  | cons x xs ih =>
    have hx : ¬ (x.created_at > r.created_at) := by
      have := h x (List.mem_cons_self x xs)
      omega
    have ih' := ih (fun y hy => h y (List.mem_cons_of_mem x hy))
    simp only [List.cons_append, sortByCreatedDesc, List.append_eq, ih',
      insertByCreatedDesc, if_neg hx]

/-- C9: Saving a transcription whose JSON body has a "text" field but no
"source" field persists a row whose source is "speech", and the
recent-transcriptions query returns that row first (newest-first ordering)
among rows inserted concurrently with it. -/
theorem C9_default_source_speech_newest_first (data : JsonObj) (now : Nat)
    (db : DB) (t : String)
    (htext : getKey data "text" = some t)
    (hnosrc : getKey data "source" = none)
    (hfresh : ∀ x ∈ db.transcriptions, x.created_at < now) :
    (api_save_transcription (some data) now db).1 = okResp ∧
    (api_save_transcription (some data) now db).2.1.transcriptions =
      db.transcriptions ++ [⟨db.next_transcription_id, t, "speech", now⟩] ∧
    (selectRecentTranscriptions
        (api_save_transcription (some data) now db).2.1).head? =
      some ⟨db.next_transcription_id, t, "speech", now⟩ := by
  have hne : data ≠ [] := by
    intro he
    subst he
    simp [getKey] at htext
  have hrow : (api_save_transcription (some data) now db).2.1.transcriptions =
      db.transcriptions ++ [⟨db.next_transcription_id, t, "speech", now⟩] := by
    simp [api_save_transcription, hne, htext, getKeyD, hnosrc]
  have hfresh' : ∀ x ∈ db.transcriptions,
      x.created_at <
        (⟨db.next_transcription_id, t, "speech", now⟩ : TranscriptionRow).created_at :=
    hfresh
  refine ⟨?_, hrow, ?_⟩
  · simp [api_save_transcription, hne, htext]
  · simp [selectRecentTranscriptions, hrow,
      sortByCreatedDesc_append_newest _ _ hfresh']

/-- Instance of C9: body `{"text": "hello"}` against the empty database. -/
theorem C9_default_source_speech_witness :
    (api_save_transcription (some [("text", "hello")]) 1 emptyDB).1 = okResp ∧
    (api_save_transcription (some [("text", "hello")]) 1 emptyDB).2.1.transcriptions =
      emptyDB.transcriptions ++
        [⟨emptyDB.next_transcription_id, "hello", "speech", 1⟩] ∧
    (selectRecentTranscriptions
        (api_save_transcription (some [("text", "hello")]) 1 emptyDB).2.1).head? =
      some ⟨emptyDB.next_transcription_id, "hello", "speech", 1⟩ :=
  C9_default_source_speech_newest_first [("text", "hello")] 1 emptyDB "hello"
    (by decide) (by decide) (by decide)

/-- Claim C2 as stated: both file-upload handlers validate the filename
extension against the allow-list before any processing (here: a rejected
request performs no effect at all — in particular the file content is not
read) and return a client error when the filename is empty or the extension
is missing or not allowed. -/
def C2_claim : Prop :=
  (∀ (gem : Bool) (f : UploadedFile) (modeParam : Option String)
      (ai : String → Except String String) (sanitize : String → String)
      (now : Nat) (db : DB),
      f.filename = "" ∨ allowed_file f.filename = false →
      (api_describe_image gem (some f) modeParam ai sanitize now db).1.status = 400 ∧
      (api_describe_image gem (some f) modeParam ai sanitize now db).2.2 = []) ∧
  (∀ (gem : Bool) (f : UploadedFile) (ai : String → Except String String)
      (sanitize : String → String),
      f.filename = "" ∨ allowed_file f.filename = false →
      (api_extract_document gem (some f) ai sanitize).1.status = 400 ∧
      (api_extract_document gem (some f) ai sanitize).2 = [])

/-- C2 is false: `api_extract_document` performs no allow-list validation
before processing — for the upload `a.exe` (extension not in the allow-list)
it reads the file content (`Effect.readFile`) before rejecting. -/
theorem C2_counterexample_extract_reads_first : ¬ C2_claim := by
  intro h
  have h2 := h.2 true ⟨"a.exe", [65]⟩ (fun _ => Except.ok "x") id (Or.inr (by decide))
  exact absurd h2.2 (by decide)

/-- C2 amended: the describe-image handler validates the filename extension
against the allow-list before any processing and returns a 400 client error
(with no effect and no state change) when the filename is empty or its
extension is missing or not in the allow-list.  The extract-document handler
rejects only an empty filename before processing; it performs no allow-list
check: it reads the file content first, then serves txt directly, sends
pdf/png/jpg/jpeg to the gateway when configured, and returns a 400 client
error for every other case. -/
theorem C2_amended_extension_validation :
    (∀ (gem : Bool) (f : UploadedFile) (modeParam : Option String)
        (ai : String → Except String String) (sanitize : String → String)
        (now : Nat) (db : DB),
        f.filename = "" ∨ allowed_file f.filename = false →
        (api_describe_image gem (some f) modeParam ai sanitize now db).1.status = 400 ∧
        (api_describe_image gem (some f) modeParam ai sanitize now db).2.2 = [] ∧
        (api_describe_image gem (some f) modeParam ai sanitize now db).2.1 = db) ∧
    (∀ (gem : Bool) (f : UploadedFile) (ai : String → Except String String)
        (sanitize : String → String),
        f.filename = "" →
        api_extract_document gem (some f) ai sanitize =
          (errResp 400 "No document selected", [])) ∧
    (∀ (gem : Bool) (f : UploadedFile) (ai : String → Except String String)
        (sanitize : String → String),
        f.filename ≠ "" →
        Effect.readFile ∈ (api_extract_document gem (some f) ai sanitize).2) ∧
    (∀ (gem : Bool) (f : UploadedFile) (ai : String → Except String String)
        (sanitize : String → String),
        f.filename ≠ "" →
        extOf (sanitize f.filename) ≠ "txt" →
        (gem = false ∨
          (["pdf", "png", "jpg", "jpeg"].contains (extOf (sanitize f.filename))) = false) →
        api_extract_document gem (some f) ai sanitize =
          (errResp 400 "Unsupported file type or Gemini not available",
            [Effect.readFile])) := by
  refine ⟨?_, ?_, ?_, ?_⟩
  · intro gem f modeParam ai sanitize now db h
    cases gem
    · simp [api_describe_image, errResp]
    · rcases h with h | h
      · simp [api_describe_image, h, errResp]
      · by_cases hf : f.filename = "" <;>
          simp [api_describe_image, hf, h, errResp]
  · intro gem f ai sanitize h
    simp [api_extract_document, h]
  · intro gem f ai sanitize h
    simp only [api_extract_document]
    rw [if_neg h]
    split
    · simp
    · split
      · split <;> simp
      · simp
  · intro gem f ai sanitize h hext hcond
    simp only [api_extract_document]
    rw [if_neg h, if_neg hext]
    rcases hcond with hg | hl
    · subst hg
      simp
    · simp [hl]
      intro hg hmem
      rcases hmem with h1 | h1 | h1 | h1 <;> simp [h1] at hl

/-- Instances of the amended C2: `virus.exe` is rejected by describe-image
with no effects; extract-document reads the content of `a.exe` and then
rejects it. -/
theorem C2_amended_extension_validation_witness :
    (api_describe_image true (some ⟨"virus.exe", [1]⟩) none
        (fun _ => Except.ok "d") id 0 emptyDB).1.status = 400 ∧
    (api_describe_image true (some ⟨"virus.exe", [1]⟩) none
        (fun _ => Except.ok "d") id 0 emptyDB).2.2 = [] ∧
    Effect.readFile ∈
      (api_extract_document true (some ⟨"a.exe", [65]⟩)
        (fun _ => Except.ok "d") id).2 ∧
    api_extract_document true (some ⟨"a.exe", [65]⟩) (fun _ => Except.ok "d") id =
      (errResp 400 "Unsupported file type or Gemini not available",
        [Effect.readFile]) :=
  ⟨(C2_amended_extension_validation.1 true ⟨"virus.exe", [1]⟩ none
      (fun _ => Except.ok "d") id 0 emptyDB (Or.inr (by decide))).1,
   (C2_amended_extension_validation.1 true ⟨"virus.exe", [1]⟩ none
      (fun _ => Except.ok "d") id 0 emptyDB (Or.inr (by decide))).2.1,
   C2_amended_extension_validation.2.2.1 true ⟨"a.exe", [65]⟩
      (fun _ => Except.ok "d") id (by decide),
   C2_amended_extension_validation.2.2.2 true ⟨"a.exe", [65]⟩
      (fun _ => Except.ok "d") id (by decide) (by decide) (Or.inr (by decide))⟩

/-- Counting `dbWrite` over the per-key write list of the preferences loop. -/
lemma count_dbWrite_map_const (data : JsonObj) :
    (data.map (fun _ => Effect.dbWrite)).count Effect.dbWrite = data.length := by
  simp [List.count_replicate]

/-- The per-key write list of the preferences loop contains no AI call. -/
lemma count_aiCall_map_const (data : JsonObj) :
    (data.map (fun _ => Effect.dbWrite)).count Effect.aiCall = 0 := by
  simp [List.count_replicate]

/-- Claim C7 as stated: every single HTTP request performs at most one
external AI call and at most one storage write (one logical insert, delete,
or upsert), across all nine handlers. -/
def C7_claim : Prop :=
  (∀ (gem : Bool) (imageFile : Option UploadedFile) (modeParam : Option String)
      (ai : String → Except String String) (sanitize : String → String)
      (now : Nat) (db : DB),
      aiCalls (api_describe_image gem imageFile modeParam ai sanitize now db).2.2 ≤ 1 ∧
      dbWrites (api_describe_image gem imageFile modeParam ai sanitize now db).2.2 ≤ 1) ∧
  (∀ (body : Option JsonObj) (now : Nat) (db : DB),
      aiCalls (api_save_transcription body now db).2.2 ≤ 1 ∧
      dbWrites (api_save_transcription body now db).2.2 ≤ 1) ∧
  (∀ (body : Option JsonObj) (now : Nat) (db : DB),
      aiCalls (api_save_text body now db).2.2 ≤ 1 ∧
      dbWrites (api_save_text body now db).2.2 ≤ 1) ∧
  (∀ (gem : Bool) (docFile : Option UploadedFile)
      (ai : String → Except String String) (sanitize : String → String),
      aiCalls (api_extract_document gem docFile ai sanitize).2 ≤ 1 ∧
      dbWrites (api_extract_document gem docFile ai sanitize).2 ≤ 1) ∧
  (∀ (body : Option JsonObj) (now : Nat) (db : DB),
      aiCalls (api_conversation body now db).2.2 ≤ 1 ∧
      dbWrites (api_conversation body now db).2.2 ≤ 1) ∧
  (∀ (gem : Bool) (body : Option JsonObj) (ai : String → Except String String),
      aiCalls (api_simplify_text gem body ai).2 ≤ 1 ∧
      dbWrites (api_simplify_text gem body ai).2 ≤ 1) ∧
  (∀ db : DB,
      aiCalls (api_preferences_get db).2 ≤ 1 ∧
      dbWrites (api_preferences_get db).2 ≤ 1) ∧
  (∀ (body : Option JsonObj) (now : Nat) (db : DB),
      aiCalls (api_preferences_post body now db).2.2 ≤ 1 ∧
      dbWrites (api_preferences_post body now db).2.2 ≤ 1) ∧
  (∀ (table : String) (id : Nat) (db : DB),
      aiCalls (api_delete_item table id db).2.2 ≤ 1 ∧
      dbWrites (api_delete_item table id db).2.2 ≤ 1)

/-- C7 is false: a preferences POST whose body has two keys performs two
storage writes (one upsert per key). -/
theorem C7_counterexample_two_key_preferences_post : ¬ C7_claim := by
  intro h
  have h2 := (h.2.2.2.2.2.2.2.1 (some [("a", "1"), ("b", "2")]) 0 emptyDB).2
  exact absurd h2 (by decide)

/-- C7 amended: every request performs at most one external AI call, and
every request except a preferences POST performs at most one storage write;
a preferences POST performs no AI call and exactly one write (one upsert) per
key of its JSON body. -/
theorem C7_amended_one_call_one_write :
    (∀ (gem : Bool) (imageFile : Option UploadedFile) (modeParam : Option String)
        (ai : String → Except String String) (sanitize : String → String)
        (now : Nat) (db : DB),
        aiCalls (api_describe_image gem imageFile modeParam ai sanitize now db).2.2 ≤ 1 ∧
        dbWrites (api_describe_image gem imageFile modeParam ai sanitize now db).2.2 ≤ 1) ∧
    (∀ (body : Option JsonObj) (now : Nat) (db : DB),
        aiCalls (api_save_transcription body now db).2.2 = 0 ∧
        dbWrites (api_save_transcription body now db).2.2 ≤ 1) ∧
    (∀ (body : Option JsonObj) (now : Nat) (db : DB),
        aiCalls (api_save_text body now db).2.2 = 0 ∧
        dbWrites (api_save_text body now db).2.2 ≤ 1) ∧
    (∀ (gem : Bool) (docFile : Option UploadedFile)
        (ai : String → Except String String) (sanitize : String → String),
        aiCalls (api_extract_document gem docFile ai sanitize).2 ≤ 1 ∧
        dbWrites (api_extract_document gem docFile ai sanitize).2 = 0) ∧
    (∀ (body : Option JsonObj) (now : Nat) (db : DB),
        aiCalls (api_conversation body now db).2.2 = 0 ∧
        dbWrites (api_conversation body now db).2.2 ≤ 1) ∧
    (∀ (gem : Bool) (body : Option JsonObj) (ai : String → Except String String),
        aiCalls (api_simplify_text gem body ai).2 ≤ 1 ∧
        dbWrites (api_simplify_text gem body ai).2 = 0) ∧
    (∀ db : DB,
        aiCalls (api_preferences_get db).2 = 0 ∧
        dbWrites (api_preferences_get db).2 = 0) ∧
    (∀ (body : Option JsonObj) (now : Nat) (db : DB),
        aiCalls (api_preferences_post body now db).2.2 = 0 ∧
        dbWrites (api_preferences_post body now db).2.2 =
          (match body with
           | none => 0
           | some data => if data = [] then 0 else data.length)) ∧
    (∀ (table : String) (id : Nat) (db : DB),
        aiCalls (api_delete_item table id db).2.2 = 0 ∧
        dbWrites (api_delete_item table id db).2.2 ≤ 1) := by
  refine ⟨?_, ?_, ?_, ?_, ?_, ?_, ?_, ?_, ?_⟩
  · intro gem imageFile modeParam ai sanitize now db
    rcases imageFile with _ | f
    · cases gem <;> simp [api_describe_image, aiCalls, dbWrites]
    · cases gem
      · simp [api_describe_image, aiCalls, dbWrites]
      · by_cases h1 : f.filename = ""
        · simp [api_describe_image, h1, aiCalls, dbWrites]
        · by_cases h2 : allowed_file f.filename = true
          · cases hai : ai (describePrompt (modeParam.getD "detailed")) <;>
              simp [api_describe_image, h1, h2, hai, aiCalls, dbWrites,
                List.count_cons]
          · simp [api_describe_image, h1, h2, aiCalls, dbWrites]
  · intro body now db
    unfold api_save_transcription
    (repeat' split) <;> simp [aiCalls, dbWrites, List.count_cons]
  · intro body now db
    unfold api_save_text
    (repeat' split) <;> simp [aiCalls, dbWrites, List.count_cons]
  · intro gem docFile ai sanitize
    rcases docFile with _ | f
    · simp [api_extract_document, aiCalls, dbWrites]
    · by_cases h1 : f.filename = ""
      · simp [api_extract_document, h1, aiCalls, dbWrites]
      · by_cases h2 : extOf (sanitize f.filename) = "txt"
        · simp [api_extract_document, h1, h2, aiCalls, dbWrites, List.count_cons]
        · cases hai : ai EXTRACT_PROMPT <;>
            simp [api_extract_document, h1, h2, hai, aiCalls, dbWrites,
              List.count_cons] <;>
            constructor <;> split <;> simp [List.count_cons]
  · intro body now db
    unfold api_conversation
    (repeat' split) <;> simp [aiCalls, dbWrites, List.count_cons]
  · intro gem body ai
    unfold api_simplify_text
    (repeat' split) <;> simp [aiCalls, dbWrites, List.count_cons]
  · intro db
    simp [api_preferences_get, aiCalls, dbWrites]
  · intro body now db
    rcases body with _ | data
    · simp [api_preferences_post, aiCalls, dbWrites]
    · by_cases hd : data = []
      · simp [api_preferences_post, hd, aiCalls, dbWrites]
      · simp [api_preferences_post, hd, aiCalls, dbWrites, List.count_cons,
          List.count_replicate]
  · intro table id db
    unfold api_delete_item
    (repeat' split) <;> simp [aiCalls, dbWrites, List.count_cons]

/-- Claim C8 as stated: handlers check that required fields are present AND
non-empty; in particular a body whose required "text" field is the empty
string is rejected with a 400-class client error and not processed — here
stated for save-transcription (no row stored) and simplify-text (no AI
call). -/
def C8_claim : Prop :=
  (∀ (data : JsonObj) (now : Nat) (db : DB),
      getKey data "text" = some "" →
      400 ≤ (api_save_transcription (some data) now db).1.status ∧
      (api_save_transcription (some data) now db).1.status < 500 ∧
      (api_save_transcription (some data) now db).2.1 = db) ∧
  (∀ (data : JsonObj) (ai : String → Except String String),
      getKey data "text" = some "" →
      400 ≤ (api_simplify_text true (some data) ai).1.status ∧
      (api_simplify_text true (some data) ai).1.status < 500 ∧
      aiCalls (api_simplify_text true (some data) ai).2 = 0)

/-- C8 is false: the body `{"text": ""}` passes the `'text' in data` presence
check of save-transcription, so the request succeeds (status 200) and a row
with empty text is stored rather than a client error being returned. -/
theorem C8_counterexample_empty_text_accepted : ¬ C8_claim := by
  intro h
  have h1 := (h.1 [("text", "")] 0 emptyDB (by decide)).1
  exact absurd h1 (by decide)

/-- C8 amended: each handler checks only that its required fields are present
(a missing body, an empty JSON object, or an absent key yields a 400 client
error with no effect), not that they are non-empty: a present-but-empty
"text" value is processed normally — save-transcription stores a row whose
text is the empty string, and simplify-text performs its AI call. -/
theorem C8_amended_presence_checked_not_nonemptiness :
    (∀ (now : Nat) (db : DB),
        api_save_transcription none now db =
          (errResp 400 "No text provided", db, [])) ∧
    (∀ (data : JsonObj) (now : Nat) (db : DB),
        getKey data "text" = none →
        api_save_transcription (some data) now db =
          (errResp 400 "No text provided", db, [])) ∧
    (∀ (data : JsonObj) (now : Nat) (db : DB) (t : String),
        getKey data "text" = some t →
        (api_save_transcription (some data) now db).1 = okResp ∧
        (api_save_transcription (some data) now db).2.1.transcriptions =
          db.transcriptions ++
            [⟨db.next_transcription_id, t, getKeyD data "source" "speech", now⟩]) ∧
    (∀ (data : JsonObj) (ai : String → Except String String),
        getKey data "text" = none →
        api_simplify_text true (some data) ai =
          (errResp 400 "No text provided", [])) ∧
    (∀ (data : JsonObj) (ai : String → Except String String) (t : String),
        getKey data "text" = some t →
        aiCalls (api_simplify_text true (some data) ai).2 = 1) := by
  refine ⟨?_, ?_, ?_, ?_, ?_⟩
  · intro now db
    rfl
  · intro data now db hnone
    by_cases hd : data = []
    · subst hd
      rfl
    · simp [api_save_transcription, hd, hnone]
  · intro data now db t ht
    have hne : data ≠ [] := by
      intro he
      subst he
      simp [getKey] at ht
    constructor <;> simp [api_save_transcription, hne, ht]
  · intro data ai hnone
    by_cases hd : data = []
    · subst hd
      rfl
    · simp [api_simplify_text, hd, hnone]
  · intro data ai t ht
    have hne : data ≠ [] := by
      intro he
      subst he
      simp [getKey] at ht
    cases hai : ai (SIMPLIFY_PREFIX ++ t) <;>
      simp [api_simplify_text, hne, ht, hai, aiCalls]

/-- Instance of the amended C8: `{"text": ""}` is accepted and stored with
empty text; a body without "text" is rejected. -/
theorem C8_amended_presence_witness :
    (api_save_transcription (some [("text", "")]) 0 emptyDB).1 = okResp ∧
    (api_save_transcription (some [("text", "")]) 0 emptyDB).2.1.transcriptions =
      emptyDB.transcriptions ++
        [⟨emptyDB.next_transcription_id, "", getKeyD [("text", "")] "source" "speech", 0⟩] ∧
    api_save_transcription (some [("note", "x")]) 0 emptyDB =
      (errResp 400 "No text provided", emptyDB, []) ∧
    aiCalls (api_simplify_text true (some [("text", "")])
        (fun _ => Except.ok "simple")).2 = 1 :=
  ⟨(C8_amended_presence_checked_not_nonemptiness.2.2.1 [("text", "")] 0 emptyDB ""
      (by decide)).1,
   (C8_amended_presence_checked_not_nonemptiness.2.2.1 [("text", "")] 0 emptyDB ""
      (by decide)).2,
   C8_amended_presence_checked_not_nonemptiness.2.1 [("note", "x")] 0 emptyDB
      (by decide),
   C8_amended_presence_checked_not_nonemptiness.2.2.2.2 [("text", "")]
      (fun _ => Except.ok "simple") "" (by decide)⟩

end AccessiBridge
